import Mathlib

/-!
Shallow embedding of the rcon-cli session/execution engine
(internal/executor/executor.go) together with proofs about its behavior.

Go strings are modelled as Lean `String`s; where the Go code indexes raw
bytes (the color-code loop ranges over runes with a byte index and reads
`text[i+1]`), the UTF-8 byte view of the string is made explicit.  Writes
to the output `io.Writer`, calls to the logging collaborator, commands sent
to the remote client and underlying connect attempts are modelled as traces
in an explicit state record.
-/

set_option maxHeartbeats 1000000

namespace RconCli

/-- The command for exit from Interactive mode (constant CommandQuit). -/
def CommandQuit : String := ":q"

/-- Symbols written between responses of several commands if more than one
command was called (constant CommandsResponseSeparator). -/
def CommandsResponseSeparator : String := "--------"

/-- Message of the error ErrCommandEmpty, returned when the executed
command length equals 0. -/
def ErrCommandEmpty : String := "command is not set"

/-- UTF-8 encoding of a character: the bytes Go stores for one rune of a
string. -/
def utf8Bytes (c : Char) : List Nat :=
  let n := c.toNat
  if n < 128 then [n]
  else if n < 2048 then [192 + n / 64, 128 + n % 64]
  else if n < 65536 then [224 + n / 4096, 128 + n / 64 % 64, 128 + n % 64]
  else [240 + n / 262144, 128 + n / 4096 % 64, 128 + n / 64 % 64, 128 + n % 64]

/-- Number of UTF-8 bytes of a character: the amount Go's range loop
advances its byte index by for one rune. -/
def utf8Len (c : Char) : Nat := (utf8Bytes c).length

/-- The UTF-8 bytes of a string: the byte view Go uses for `text[i]`
indexing. -/
def strBytes (s : List Char) : List Nat := (s.map utf8Bytes).join

/-- Map of Minecraft color codes to ANSI escape codes (colorMap in
processColorCodes). -/
def colorMap : Char → Option String
  | '0' => some "\x1b[30m"
  | '1' => some "\x1b[34m"
  | '2' => some "\x1b[32m"
  | '3' => some "\x1b[36m"
  | '4' => some "\x1b[31m"
  | '5' => some "\x1b[35m"
  | '6' => some "\x1b[33m"
  | '7' => some "\x1b[37m"
  | '8' => some "\x1b[90m"
  | '9' => some "\x1b[94m"
  | 'a' => some "\x1b[92m"
  | 'b' => some "\x1b[96m"
  | 'c' => some "\x1b[91m"
  | 'd' => some "\x1b[95m"
  | 'e' => some "\x1b[93m"
  | 'f' => some "\x1b[97m"
  | 'r' => some "\x1b[0m"
  | _ => none

/-- The non-strip loop of processColorCodes.  Go ranges over the runes of
`text` with `i` the byte offset of the current rune; on seeing the sentinel
rune with `i+1 < len(text)` it looks up the raw byte `text[i+1]`, converted
to a rune, in colorMap, and on a hit writes the escape and skips the next
rune; otherwise the rune passes through. -/
def applyColorsAux (orig : List Char) : List Char → Nat → Bool → List Char
  | [], _, _ => []
  | r :: rest, i, skip =>
    if skip then applyColorsAux orig rest (i + utf8Len r) false
    else if r = '§' ∧ i + 1 < (strBytes orig).length then
      match (strBytes orig).get? (i + 1) with
      | some b =>
        match colorMap (Char.ofNat b) with
        | some color => color.data ++ applyColorsAux orig rest (i + utf8Len r) true
        | none => r :: applyColorsAux orig rest (i + utf8Len r) false
      | none => r :: applyColorsAux orig rest (i + utf8Len r) false
    else r :: applyColorsAux orig rest (i + utf8Len r) false

/-- processColorCodes from executor.go: in strip mode every sentinel rune
is removed via strings.Map (returning -1 drops the rune, all other runes
pass through); otherwise the coloring loop runs and a reset escape is
appended at the end. -/
def processColorCodes (text : String) (stripColors : Bool) : String :=
  if stripColors then ⟨text.data.filter (fun r => r != '§')⟩
  else ⟨applyColorsAux text.data text.data 0 false ++ ("\x1b[0m").data⟩

/-- One cons cell of strBytes. -/
lemma strBytes_cons (c : Char) (cs : List Char) :
    strBytes (c :: cs) = utf8Bytes c ++ strBytes cs := by
  simp [strBytes]

/-- The UTF-8 bytes of the sentinel rune. -/
lemma utf8Bytes_sect : utf8Bytes '§' = [194, 167] := by decide

/-- The byte reached by `text[i+1]` when the rune at byte offset `i` is the
two-byte sentinel is the second byte of the sentinel itself, which converts
back to the sentinel rune and is not a colorMap key; hence the coloring
loop reproduces its input. -/
lemma applyColorsAux_eq (orig : List Char) :
    ∀ (cs : List Char) (i : Nat), (strBytes orig).drop i = strBytes cs →
      applyColorsAux orig cs i false = cs := by
  intro cs
  induction cs with
  | nil => intro i _; rfl
  | cons r rest ih =>
    intro i h
    have hdd : (strBytes orig).drop (i + utf8Len r) = ((strBytes orig).drop i).drop (utf8Len r) := by
      rw [List.drop_drop, Nat.add_comm]
    have hdrop : (strBytes orig).drop (i + utf8Len r) = strBytes rest := by
      rw [hdd, h, strBytes_cons, utf8Len, List.drop_left]
    by_cases hr : r = '§'
    · subst hr
      have hlen2 : strBytes ('§' :: rest) = 194 :: 167 :: strBytes rest := by
        rw [strBytes_cons, utf8Bytes_sect]; rfl
      have hlendrop : ((strBytes orig).drop i).length = 2 + (strBytes rest).length := by
        rw [h, hlen2]
        simp only [List.length_cons]
        omega
      have hcond : i + 1 < (strBytes orig).length := by
        rw [List.length_drop] at hlendrop
        omega
      have hget : (strBytes orig).get? (i + 1) = some 167 := by
        have h1 : ((strBytes orig).drop i).get? 1 = (strBytes orig).get? (i + 1) := by
          rw [List.get?_drop]
        rw [← h1, h, hlen2]
        rfl
      show applyColorsAux orig ('§' :: rest) i false = '§' :: rest
      rw [applyColorsAux, if_neg Bool.false_ne_true, if_pos ⟨rfl, hcond⟩, hget]
      show '§' :: applyColorsAux orig rest (i + utf8Len '§') false = '§' :: rest
      rw [ih _ hdrop]
    · show applyColorsAux orig (r :: rest) i false = r :: rest
      rw [applyColorsAux, if_neg Bool.false_ne_true,
        if_neg (fun hc => hr hc.1), ih _ hdrop]

/-- In non-strip mode processColorCodes passes the text through unchanged
and appends the reset escape. -/
lemma processColorCodes_false_data (s : String) :
    (processColorCodes s false).data = s.data ++ ("\x1b[0m").data := by
  show (applyColorsAux s.data s.data 0 false ++ ("\x1b[0m").data) = _
  rw [applyColorsAux_eq s.data s.data 0 (by rw [List.drop_zero])]

/-- String version of the passthrough lemma. -/
lemma processColorCodes_false_eq (s : String) :
    processColorCodes s false = s ++ "\x1b[0m" := by
  cases s with
  | mk data =>
    apply congrArg String.mk
    exact processColorCodes_false_data ⟨data⟩

/-- Claim C1: the spec states that non-strip normalization replaces each
recognized (sentinel, code) pair by its ANSI escape.  Evaluating the code
at the failing input shows the recognized pair passes through literally
(only the reset escape is appended): the lookup reads the second byte of
the two-byte sentinel rune instead of the code character, so it never
hits, contradicting the documented intent of colorMap and of the
"Apply ANSI color codes" branch. -/
theorem claim_C1_eval :
    processColorCodes "§a" false = "§a\x1b[0m" ∧
      processColorCodes "§a" false ≠ "\x1b[92m\x1b[0m" := by
  refine ⟨?_, ?_⟩
  · rw [processColorCodes_false_eq]
    rfl
  · rw [processColorCodes_false_eq]
    decide

/-- Claim C9: strip-mode normalization never leaves the sentinel rune in
its output, for any input, and normalizing the empty string in strip mode
yields the empty string. -/
theorem claim_C9 :
    ∀ s : String, (∀ c ∈ (processColorCodes s true).data, c ≠ '§') ∧
      processColorCodes "" true = "" := by
  intro s
  refine ⟨?_, rfl⟩
  intro c hc
  have hmem : c ∈ s.data.filter (fun r => r != '§') := hc
  have := List.of_mem_filter hmem
  simpa using this

/-- Claim C9 witness: at a concrete input the sentinel is absent from the
strip-mode output. -/
theorem claim_C9_witness :
    '§' ∉ (processColorCodes "a§b" true).data ∧ processColorCodes "" true = "" :=
  ⟨fun h => (claim_C9 "a§b").1 '§' h rfl, (claim_C9 "x").2⟩

/-- Whether Go's unicode.IsSpace holds for a character: the Latin-1 white
space characters plus the Unicode White_Space code points, the set trimmed
by strings.TrimSpace. -/
def goIsSpace (c : Char) : Bool :=
  c == ' ' || c == '\t' || c == '\n' || c.toNat == 11 || c.toNat == 12 ||
  c == '\r' || c.toNat == 133 || c.toNat == 160 || c.toNat == 5760 ||
  (Nat.ble 8192 c.toNat && Nat.ble c.toNat 8202) || c.toNat == 8232 ||
  c.toNat == 8233 || c.toNat == 8239 || c.toNat == 8287 || c.toNat == 12288

/-- strings.TrimSpace: remove white space from both ends of a string. -/
def trimSpace (s : String) : String :=
  ⟨((s.data.dropWhile goIsSpace).reverse.dropWhile goIsSpace).reverse⟩

/-- A connection capability (interface ExecuteCloser): Execute maps a
command to a response together with an optional error. -/
def Client := String → String × Option String

/-- Modelled from the spec: the protocol identifiers are constants of the
config collaborator, which is outside the provided sources; the claims
depend only on them being three distinct tags, with unmatched or empty
tags falling back to the default provider. -/
def ProtocolRCON : String := "rcon"

/-- Modelled from the spec: the WebSocket-RCON protocol identifier of the
config collaborator (see ProtocolRCON). -/
def ProtocolWebRCON : String := "web"

/-- Modelled from the spec: the Telnet protocol identifier of the config
collaborator (see ProtocolRCON). -/
def ProtocolTELNET : String := "telnet"

/-- Modelled from the spec: name of the default config environment used
when the env flag is empty; defined in the config collaborator outside the
provided sources. -/
def DefaultConfigEnv : String := "default"

/-- The session descriptor (config.Session), with the fields the executor
reads: Address, Password, Type, Log, SkipErrors, Timeout, Variables. -/
structure Session where
  address : String
  password : String
  type : String
  log : String
  skipErrors : Bool
  timeout : Nat
  variablesFlag : Bool

/-- Observable state of an Executor run: the lazily created client handle
(executor.client), plus traces of the write calls made to the output
writer, of the (logPath, address, command, response) tuples forwarded to
the logging collaborator, of the commands sent to the remote client, and
of the number of underlying connect attempts. -/
structure ExecutorState where
  client : Option Client
  out : List String
  logs : List (String × String × String × String)
  sent : List String
  connects : Nat

/-- Results of the three protocol dial factories (telnet.Dial,
websocket.Dial, rcon.Dial) for the current session parameters: each either
a connected client or an error. -/
structure Providers where
  telnet : Except String Client
  websocket : Except String Client
  rcon : Except String Client

/-- Dial from executor.go: a connect is attempted only when no client
handle exists, choosing the provider by the session protocol type (telnet,
web, default rcon); on failure the handle is cleared and the error is
wrapped with an auth tag. -/
def Dial (ps : Providers) (ses : Session) (st : ExecutorState) :
    ExecutorState × Option String :=
  match st.client with
  | some _ => (st, none)
  | none =>
    match (if ses.type = ProtocolTELNET then ps.telnet
           else if ses.type = ProtocolWebRCON then ps.websocket
           else ps.rcon) with
    | Except.ok c => ({st with client := some c, connects := st.connects + 1}, none)
    | Except.error e =>
      ({st with client := none, connects := st.connects + 1}, some ("auth: " ++ e))

/-- The single-command step execute from executor.go: an empty command
fails with ErrCommandEmpty; otherwise the client is invoked, a non-empty
raw response is trimmed, color-processed and written to the output; a
client error is either printed inline (skip-errors) or propagated wrapped
with an execute tag, skipping the log write; finally the command and the
processed response are forwarded to the logging collaborator.  The
logging collaborator is modelled as recording its argument tuple and
succeeding (its failure is printed but never propagated by the code and
is outside the claims). -/
def executeOne (cl : Client) (ses : Session) (st : ExecutorState) (command : String) :
    ExecutorState × Option String :=
  if command = "" then (st, some ErrCommandEmpty)
  else
    let res := (cl command).1
    let err := (cl command).2
    let result := if res ≠ "" then processColorCodes (trimSpace res) false else res
    let out1 := if res ≠ "" then st.out ++ [result] else st.out
    match err with
    | none =>
      ({st with sent := st.sent ++ [command], out := out1,
                logs := st.logs ++ [(ses.log, ses.address, command, result)]}, none)
    | some e =>
      if ses.skipErrors then
        ({st with sent := st.sent ++ [command], out := out1 ++ ["execute: " ++ e],
                  logs := st.logs ++ [(ses.log, ses.address, command, result)]}, none)
      else
        ({st with sent := st.sent ++ [command], out := out1}, some ("execute: " ++ e))

/-- The command loop inside Execute: run each command in order, aborting
on a propagated error, and write the separator line after every command
except the last. -/
def execLoop (cl : Client) (ses : Session) (st : ExecutorState) :
    List String → ExecutorState × Option String
  | [] => (st, none)
  | command :: rest =>
    match executeOne cl ses st command with
    | (st1, some e) => (st1, some e)
    | (st1, none) =>
      if rest.isEmpty then (st1, none)
      else execLoop cl ses {st1 with out := st1.out ++ [CommandsResponseSeparator]} rest

/-- The deferred close registered by Execute for the WebRCON protocol:
when the session type is WebRCON the client handle is closed (and the
handle cleared) as the call returns; otherwise the result is unchanged. -/
def webClose (ses : Session) (r : ExecutorState × Option String) :
    ExecutorState × Option String :=
  if ses.type = ProtocolWebRCON then ({r.1 with client := none}, r.2) else r

/-- Execute from executor.go: an empty command list fails with
ErrCommandEmpty before anything else happens (the WebRCON deferred close
is registered only after this check); otherwise the executor dials
(wrapping a dial error with an execute tag) and runs the command loop;
for the WebRCON protocol the client handle is closed when the call
returns.  The inner none case is unreachable: Dial returns no error only
with a client handle present (see Dial_ok_client). -/
def Execute (ps : Providers) (ses : Session) (st : ExecutorState)
    (commands : List String) : ExecutorState × Option String :=
  if commands.isEmpty then (st, some ErrCommandEmpty)
  else
    webClose ses
      (match Dial ps ses st with
       | (st1, some e) => (st1, some ("execute: " ++ e))
       | (st1, none) =>
         match st1.client with
         | some cl => execLoop cl ses st1 commands
         | none => (st1, none))

/-- When Dial reports no error a client handle is present. -/
lemma Dial_ok_client (ps : Providers) (ses : Session) (st : ExecutorState)
    (h : (Dial ps ses st).2 = none) : ((Dial ps ses st).1).client.isSome := by
  cases hc : st.client with
  | some c => simp [Dial, hc]
  | none =>
    cases hd : (if ses.type = ProtocolTELNET then ps.telnet
      else if ses.type = ProtocolWebRCON then ps.websocket else ps.rcon) with
    | ok c => simp [Dial, hc, hd]
    | error e => simp [Dial, hc, hd] at h

/-- Dialing with an existing handle changes nothing and reports success. -/
lemma Dial_some (ps : Providers) (ses : Session) (st : ExecutorState)
    (cl : Client) (h : st.client = some cl) : Dial ps ses st = (st, none) := by
  simp [Dial, h]

/-- Claim C5: batch execution with an empty command list returns the
command-not-set error and changes nothing: no write, no log call, no
command sent, no connect attempt, and the client handle is untouched. -/
theorem claim_C5 (ps : Providers) (ses : Session) (st : ExecutorState) :
    Execute ps ses st [] = (st, some ErrCommandEmpty) := rfl

/-- Claim C7: the dispatcher keeps at most one live handle.  With a handle
present, Dial is a no-op success attempting no connect; hence a dial after
a successful dial performs exactly one connect in total; and a failing
connect clears the handle and returns the error wrapped with an auth
tag. -/
theorem claim_C7 (ps : Providers) (ses : Session) (st : ExecutorState) :
    (∀ cl : Client, st.client = some cl → Dial ps ses st = (st, none)) ∧
    (∀ cl : Client, st.client = none →
      (if ses.type = ProtocolTELNET then ps.telnet
        else if ses.type = ProtocolWebRCON then ps.websocket else ps.rcon) =
          Except.ok cl →
      (Dial ps ses st).2 = none ∧
      (Dial ps ses (Dial ps ses st).1).2 = none ∧
      (Dial ps ses (Dial ps ses st).1).1.connects = st.connects + 1 ∧
      (Dial ps ses (Dial ps ses st).1).1.client = some cl) ∧
    (∀ e : String, st.client = none →
      (if ses.type = ProtocolTELNET then ps.telnet
        else if ses.type = ProtocolWebRCON then ps.websocket else ps.rcon) =
          Except.error e →
      Dial ps ses st =
        ({st with client := none, connects := st.connects + 1},
          some ("auth: " ++ e))) := by
  refine ⟨fun cl h => Dial_some ps ses st cl h, fun cl h hd => ?_, fun e h hd => ?_⟩
  · have h1 : Dial ps ses st =
        ({st with client := some cl, connects := st.connects + 1}, none) := by
      simp [Dial, h, hd]
    rw [h1]
    have h2 : Dial ps ses {st with client := some cl, connects := st.connects + 1} =
        ({st with client := some cl, connects := st.connects + 1}, none) :=
      Dial_some _ _ _ cl rfl
    rw [h2]
    exact ⟨rfl, rfl, rfl, rfl⟩
  · simp [Dial, h, hd]

/-- Claim C7 witness: the three parts of claim_C7 at concrete inputs. -/
theorem claim_C7_witness :
    (let ps : Providers :=
      ⟨Except.error "t", Except.error "w", Except.ok (fun _ => ("", none))⟩
     let ses : Session := ⟨"a:1", "pw", "", "", false, 0, false⟩
     let st0 : ExecutorState := ⟨none, [], [], [], 0⟩
     (Dial ps ses st0).2 = none ∧
     (Dial ps ses (Dial ps ses st0).1).2 = none ∧
     (Dial ps ses (Dial ps ses st0).1).1.connects = 1) ∧
    (let ps : Providers :=
      ⟨Except.error "t", Except.error "w", Except.error "refused"⟩
     let ses : Session := ⟨"a:1", "pw", "", "", false, 0, false⟩
     let st0 : ExecutorState := ⟨none, [], [], [], 0⟩
     Dial ps ses st0 =
       ({st0 with client := none, connects := 1}, some ("auth: refused"))) := by
  constructor
  · have h := (claim_C7 ⟨Except.error "t", Except.error "w",
      Except.ok (fun _ => ("", none))⟩ ⟨"a:1", "pw", "", "", false, 0, false⟩
      ⟨none, [], [], [], 0⟩).2.1 (fun _ => ("", none)) rfl (by rfl)
    exact ⟨h.1, h.2.1, h.2.2.1⟩
  · exact (claim_C7 ⟨Except.error "t", Except.error "w", Except.error "refused"⟩
      ⟨"a:1", "pw", "", "", false, 0, false⟩ ⟨none, [], [], [], 0⟩).2.2 "refused"
      rfl (by rfl)

/-- The closing step does not change the returned error. -/
lemma webClose_snd (ses : Session) (r : ExecutorState × Option String) :
    (webClose ses r).2 = r.2 := by
  unfold webClose; split <;> rfl

/-- The closing step does not change the output trace. -/
lemma webClose_out (ses : Session) (r : ExecutorState × Option String) :
    (webClose ses r).1.out = r.1.out := by
  unfold webClose; split <;> rfl

/-- The closing step does not change the sent trace. -/
lemma webClose_sent (ses : Session) (r : ExecutorState × Option String) :
    (webClose ses r).1.sent = r.1.sent := by
  unfold webClose; split <;> rfl

/-- The closing step does not change the log trace. -/
lemma webClose_logs (ses : Session) (r : ExecutorState × Option String) :
    (webClose ses r).1.logs = r.1.logs := by
  unfold webClose; split <;> rfl

/-- A non-empty list is not isEmpty. -/
lemma isEmpty_false_of_ne_nil {α : Type} (l : List α) (h : l ≠ []) :
    l.isEmpty = false := by
  cases l with
  | nil => cases h rfl
  | cons a t => rfl

/-- With a connected client, Execute is the command loop followed by the
deferred-close step. -/
lemma Execute_connected (ps : Providers) (ses : Session) (st : ExecutorState)
    (cl : Client) (cmds : List String) (hcl : st.client = some cl)
    (hne : cmds ≠ []) :
    Execute ps ses st cmds = webClose ses (execLoop cl ses st cmds) := by
  unfold Execute
  rw [isEmpty_false_of_ne_nil cmds hne, if_neg Bool.false_ne_true,
    Dial_some ps ses st cl hcl]
  simp only [hcl]

/-- Output lines the single-command step writes for a command whose error,
if any, is absorbed: the processed response when the raw response is
non-empty, then the inline error line when skip-errors is on. -/
def execOut (cl : Client) (ses : Session) (command : String) : List String :=
  (if (cl command).1 ≠ ""
    then [processColorCodes (trimSpace (cl command).1) false] else []) ++
  (match (cl command).2 with
   | some e => if ses.skipErrors then ["execute: " ++ e] else []
   | none => [])

/-- The response-only output of the single-command step, written even when
the error is propagated. -/
def respOut (cl : Client) (command : String) : List String :=
  if (cl command).1 ≠ ""
    then [processColorCodes (trimSpace (cl command).1) false] else []

/-- The tuple the single-command step forwards to the logging
collaborator: the response slot holds the processed response when the raw
response was non-empty, else the raw (empty) response. -/
def logEntry (cl : Client) (ses : Session) (command : String) :
    String × String × String × String :=
  (ses.log, ses.address, command,
   if (cl command).1 ≠ ""
     then processColorCodes (trimSpace (cl command).1) false else (cl command).1)

/-- The single-command step rejects the empty command before doing
anything. -/
lemma executeOne_empty (cl : Client) (ses : Session) (st : ExecutorState) :
    executeOne cl ses st "" = (st, some ErrCommandEmpty) := rfl

/-- The single-command step on a non-empty command whose error, if any, is
absorbed by skip-errors: the command is sent, the block of output lines is
written, the log entry is recorded, and no error is returned. -/
lemma executeOne_ok (cl : Client) (ses : Session) (st : ExecutorState)
    (command : String) (hc : command ≠ "")
    (h : (cl command).2 = none ∨ ses.skipErrors = true) :
    executeOne cl ses st command =
      ({st with sent := st.sent ++ [command],
                out := st.out ++ execOut cl ses command,
                logs := st.logs ++ [logEntry cl ses command]}, none) := by
  cases he : (cl command).2 with
  | none =>
    by_cases hr : (cl command).1 = "" <;>
      simp [executeOne, execOut, logEntry, hc, he, hr, List.append_assoc]
  | some e =>
    rcases h with h | hskip
    · rw [he] at h; cases h
    · by_cases hr : (cl command).1 = "" <;>
        simp [executeOne, execOut, logEntry, hc, he, hr, hskip, List.append_assoc]

/-- The single-command step on a non-empty command with a client error and
skip-errors off: the command is sent, only the response is written, no log
entry is recorded, and the error is propagated wrapped with the execute
tag. -/
lemma executeOne_err (cl : Client) (ses : Session) (st : ExecutorState)
    (command e : String) (hc : command ≠ "") (he : (cl command).2 = some e)
    (hskip : ses.skipErrors = false) :
    executeOne cl ses st command =
      ({st with sent := st.sent ++ [command],
                out := st.out ++ respOut cl command}, some ("execute: " ++ e)) := by
  by_cases hr : (cl command).1 = "" <;>
    simp [executeOne, respOut, hc, he, hr, hskip]

/-- Unfolding of the command loop on a step that does not propagate. -/
lemma execLoop_cons_ok (cl : Client) (ses : Session) (st : ExecutorState)
    (command : String) (rest : List String) (S : ExecutorState)
    (hstep : executeOne cl ses st command = (S, none)) :
    execLoop cl ses st (command :: rest) =
      if rest.isEmpty then (S, none)
      else execLoop cl ses {S with out := S.out ++ [CommandsResponseSeparator]} rest := by
  rw [execLoop, hstep]

/-- Unfolding of the command loop on a step that propagates an error. -/
lemma execLoop_cons_err (cl : Client) (ses : Session) (st : ExecutorState)
    (command : String) (rest : List String) (S : ExecutorState) (e : String)
    (hstep : executeOne cl ses st command = (S, some e)) :
    execLoop cl ses st (command :: rest) = (S, some e) := by
  rw [execLoop, hstep]

/-- The command loop when every command is non-empty and every client
error is absorbed by skip-errors: all commands are sent in order, the
output blocks appear in order with the separator between successive
blocks, every command is logged in order, and no error is returned. -/
lemma execLoop_ok (cl : Client) (ses : Session) (cmds : List String) :
    ∀ st : ExecutorState,
      (∀ c ∈ cmds, c ≠ "" ∧ ((cl c).2 = none ∨ ses.skipErrors = true)) →
      execLoop cl ses st cmds =
        ({st with sent := st.sent ++ cmds,
                  out := st.out ++ ((cmds.map (execOut cl ses)).intersperse
                    [CommandsResponseSeparator]).flatten,
                  logs := st.logs ++ cmds.map (logEntry cl ses)}, none) := by
  induction cmds with
  | nil => intro st _; simp [execLoop]
  | cons c rest ih =>
    intro st h
    have hc := h c (List.mem_cons_self c rest)
    rw [execLoop_cons_ok cl ses st c rest _ (executeOne_ok cl ses st c hc.1 hc.2)]
    cases rest with
    | nil => simp [List.intersperse]
    | cons c2 t =>
      rw [show (c2 :: t).isEmpty = false from rfl, if_neg Bool.false_ne_true,
        ih _ (fun x hx => h x (List.mem_cons_of_mem c hx))]
      simp [List.intersperse, List.append_assoc]

/-- The processed response never equals the separator line: it always
contains the escape character of the appended reset sequence. -/
lemma resp_ne_sep (s : String) :
    processColorCodes s false ≠ CommandsResponseSeparator := by
  intro h
  have hd := congrArg String.data h
  rw [processColorCodes_false_data] at hd
  have h1 : '\x1b' ∈ s.data ++ ("\x1b[0m").data :=
    List.mem_append_right _ (by decide)
  rw [hd] at h1
  exact absurd h1 (by decide)

/-- Data of an appended string. -/
lemma string_data_append (a b : String) : (a ++ b).data = a.data ++ b.data := by
  cases a; cases b; rfl

/-- An inline error line never equals the separator line: it starts with
the execute tag. -/
lemma errline_ne_sep (e : String) :
    ("execute: " ++ e) ≠ CommandsResponseSeparator := by
  intro h
  have h0 : ("execute: " ++ e).data.head? = CommandsResponseSeparator.data.head? := by
    rw [h]
  have hL : ("execute: " ++ e).data.head? = some 'e' := by
    rw [string_data_append]
    rfl
  have hR : CommandsResponseSeparator.data.head? = some '-' := rfl
  rw [hL, hR] at h0
  exact absurd h0 (by decide)

/-- The separator line never occurs inside the output block of a single
command. -/
lemma sep_not_mem_execOut (cl : Client) (ses : Session) (c : String) :
    CommandsResponseSeparator ∉ execOut cl ses c := by
  intro h
  unfold execOut at h
  rcases List.mem_append.mp h with h | h
  · split at h
    · exact resp_ne_sep _ ((List.mem_singleton.mp h).symm)
    · exact absurd h (List.not_mem_nil _)
  · split at h
    · split at h
      · exact errline_ne_sep _ ((List.mem_singleton.mp h).symm)
      · exact absurd h (List.not_mem_nil _)
    · exact absurd h (List.not_mem_nil _)

/-- Counting the separator in the flattening of separator-free blocks
interspersed with the separator: exactly one per gap. -/
lemma count_sep_flatten : ∀ bs : List (List String),
    (∀ b ∈ bs, CommandsResponseSeparator ∉ b) → bs ≠ [] →
    List.count CommandsResponseSeparator
      ((bs.intersperse [CommandsResponseSeparator]).flatten) = bs.length - 1 := by
  intro bs
  induction bs with
  | nil => intro _ h; cases h rfl
  | cons b t ih =>
    intro hfree _
    cases t with
    | nil =>
      simp [List.intersperse, List.count_eq_zero.mpr (hfree b (List.mem_cons_self b []))]
    | cons b2 t2 =>
      have h1 : (b :: b2 :: t2).intersperse [CommandsResponseSeparator] =
          b :: [CommandsResponseSeparator] ::
            ((b2 :: t2).intersperse [CommandsResponseSeparator]) := rfl
      rw [h1, List.flatten_cons, List.flatten_cons, List.count_append,
        List.count_append, List.count_eq_zero.mpr (hfree b (List.mem_cons_self b _)),
        ih (fun x hx => hfree x (List.mem_cons_of_mem b hx)) (by simp)]
      simp [List.count_cons]
      omega

/-- Claim C3: in a three-command batch whose second command fails
remotely, skip-errors on runs all three commands, logs all three, writes
the error as a visible output line, and returns no error; skip-errors off
never sends the third command, logs only the first, and returns the error
of the second wrapped with the execute tag. -/
theorem claim_C3 (ps : Providers) (cl : Client) (ses : Session)
    (st : ExecutorState) (c1 c2 c3 e : String)
    (h1 : (cl c1).2 = none) (h2 : (cl c2).2 = some e) (h3 : (cl c3).2 = none)
    (n1 : c1 ≠ "") (n2 : c2 ≠ "") (n3 : c3 ≠ "")
    (hcl : st.client = some cl) :
    ((Execute ps {ses with skipErrors := true} st [c1, c2, c3]).2 = none ∧
     (Execute ps {ses with skipErrors := true} st [c1, c2, c3]).1.sent =
       st.sent ++ [c1, c2, c3] ∧
     (Execute ps {ses with skipErrors := true} st [c1, c2, c3]).1.logs =
       st.logs ++ [logEntry cl {ses with skipErrors := true} c1,
         logEntry cl {ses with skipErrors := true} c2,
         logEntry cl {ses with skipErrors := true} c3] ∧
     (Execute ps {ses with skipErrors := true} st [c1, c2, c3]).1.out =
       st.out ++ execOut cl {ses with skipErrors := true} c1 ++
         [CommandsResponseSeparator] ++
         execOut cl {ses with skipErrors := true} c2 ++
         [CommandsResponseSeparator] ++
         execOut cl {ses with skipErrors := true} c3 ∧
     ("execute: " ++ e) ∈ execOut cl {ses with skipErrors := true} c2) ∧
    ((Execute ps {ses with skipErrors := false} st [c1, c2, c3]).2 =
       some ("execute: " ++ e) ∧
     (Execute ps {ses with skipErrors := false} st [c1, c2, c3]).1.sent =
       st.sent ++ [c1, c2] ∧
     (Execute ps {ses with skipErrors := false} st [c1, c2, c3]).1.logs =
       st.logs ++ [logEntry cl {ses with skipErrors := false} c1] ∧
     (Execute ps {ses with skipErrors := false} st [c1, c2, c3]).1.out =
       st.out ++ execOut cl {ses with skipErrors := false} c1 ++
         [CommandsResponseSeparator] ++ respOut cl c2) := by
  constructor
  · have hT : ∀ c ∈ [c1, c2, c3], c ≠ "" ∧
        ((cl c).2 = none ∨ ({ses with skipErrors := true} : Session).skipErrors = true) := by
      intro c hcmem
      rcases List.mem_cons.mp hcmem with rfl | hcmem
      · exact ⟨n1, Or.inr rfl⟩
      rcases List.mem_cons.mp hcmem with rfl | hcmem
      · exact ⟨n2, Or.inr rfl⟩
      rcases List.mem_cons.mp hcmem with rfl | hcmem
      · exact ⟨n3, Or.inr rfl⟩
      cases hcmem
    have hA := Execute_connected ps {ses with skipErrors := true} st cl [c1, c2, c3]
      hcl (by simp)
    rw [execLoop_ok cl _ [c1, c2, c3] st hT] at hA
    refine ⟨?_, ?_, ?_, ?_, ?_⟩
    · rw [hA, webClose_snd]
    · rw [hA, webClose_sent]
    · rw [hA, webClose_logs]
      rfl
    · rw [hA, webClose_out]
      simp [List.intersperse, List.append_assoc]
    · unfold execOut
      rw [h2]
      exact List.mem_append_right _ (by simp)
  · have hs1 := executeOne_ok cl {ses with skipErrors := false} st c1 n1 (Or.inl h1)
    have hE := Execute_connected ps {ses with skipErrors := false} st cl [c1, c2, c3]
      hcl (by simp)
    rw [execLoop_cons_ok cl _ st c1 [c2, c3] _ hs1,
      show ([c2, c3] : List String).isEmpty = false from rfl,
      if_neg Bool.false_ne_true,
      execLoop_cons_err cl _ _ c2 [c3] _ _
        (executeOne_err cl _ _ c2 e n2 h2 rfl)] at hE
    refine ⟨?_, ?_, ?_, ?_⟩
    · rw [hE, webClose_snd]
    · rw [hE, webClose_sent]
      simp
    · rw [hE, webClose_logs]
    · rw [hE, webClose_out]

/-- A mock client for witnesses: command "b" fails with error "boom",
every other command succeeds with response "resp". -/
def clMock : Client := fun s => if s = "b" then ("respB", some "boom") else ("resp", none)

/-- A session for witnesses. -/
def sesMock : Session := ⟨"addr:1", "pw", "", "log.txt", false, 0, false⟩

/-- An already-connected initial state for witnesses. -/
def stMock : ExecutorState := ⟨some clMock, [], [], [], 0⟩

/-- Providers for witnesses (never consulted once connected). -/
def psMock : Providers := ⟨Except.error "t", Except.error "w", Except.ok clMock⟩

/-- Claim C3 witness: the skip-errors dichotomy at a concrete batch. -/
theorem claim_C3_witness :
    (Execute psMock {sesMock with skipErrors := true} stMock ["a", "b", "c"]).2 = none ∧
    (Execute psMock {sesMock with skipErrors := true} stMock ["a", "b", "c"]).1.sent =
      ["a", "b", "c"] ∧
    ("execute: " ++ "boom") ∈ execOut clMock {sesMock with skipErrors := true} "b" ∧
    (Execute psMock {sesMock with skipErrors := false} stMock ["a", "b", "c"]).2 =
      some ("execute: " ++ "boom") ∧
    (Execute psMock {sesMock with skipErrors := false} stMock ["a", "b", "c"]).1.sent =
      ["a", "b"] := by
  have h := claim_C3 psMock clMock sesMock stMock "a" "b" "c" "boom"
    rfl rfl rfl (by decide) (by decide) (by decide) rfl
  refine ⟨h.1.1, ?_, h.1.2.2.2.2, h.2.1, ?_⟩
  · rw [h.1.2.1]; rfl
  · rw [h.2.2.1]; rfl

/-- The command loop with skip-errors on and an empty command somewhere in
the batch: the loop stops at the first empty command with the raw
command-not-set error, having sent and logged exactly the commands before
it. -/
lemma execLoop_empty_mem (cl : Client) (ses : Session)
    (hskip : ses.skipErrors = true) (cmds : List String) :
    ∀ st : ExecutorState, "" ∈ cmds →
      (execLoop cl ses st cmds).2 = some ErrCommandEmpty ∧
      (execLoop cl ses st cmds).1.sent =
        st.sent ++ cmds.takeWhile (fun c => c != "") ∧
      (execLoop cl ses st cmds).1.logs =
        st.logs ++ (cmds.takeWhile (fun c => c != "")).map (logEntry cl ses) := by
  induction cmds with
  | nil => intro st h; cases h
  | cons c rest ih =>
    intro st hmem
    by_cases hc : c = ""
    · subst hc
      rw [execLoop_cons_err cl ses st "" rest st ErrCommandEmpty
        (executeOne_empty cl ses st)]
      simp [List.takeWhile]
    · have hmem2 : "" ∈ rest := by
        rcases List.mem_cons.mp hmem with h | h
        · exact absurd h.symm hc
        · exact h
      have hrestne : rest ≠ [] := by
        intro hr; rw [hr] at hmem2; cases hmem2
      rw [execLoop_cons_ok cl ses st c rest _ (executeOne_ok cl ses st c hc (Or.inr hskip)),
        isEmpty_false_of_ne_nil rest hrestne, if_neg Bool.false_ne_true]
      obtain ⟨ha, hb, hl⟩ := ih _ hmem2
      refine ⟨ha, ?_, ?_⟩
      · rw [hb]
        simp [List.takeWhile_cons, hc, List.append_assoc]
      · rw [hl]
        simp [List.takeWhile_cons, hc, List.append_assoc]

/-- Claim C4: a batch containing an empty command aborts at that command
with the raw command-not-set error even when skip-errors is on: the error
is propagated, not converted to inline output, only the commands before
the first empty one are sent and logged. -/
theorem claim_C4 (ps : Providers) (cl : Client) (ses : Session)
    (st : ExecutorState) (cmds : List String)
    (hskip : ses.skipErrors = true) (hmem : "" ∈ cmds)
    (hcl : st.client = some cl) :
    (Execute ps ses st cmds).2 = some ErrCommandEmpty ∧
    (Execute ps ses st cmds).1.sent =
      st.sent ++ cmds.takeWhile (fun c => c != "") ∧
    (Execute ps ses st cmds).1.logs =
      st.logs ++ (cmds.takeWhile (fun c => c != "")).map (logEntry cl ses) := by
  have hne : cmds ≠ [] := by
    intro h; rw [h] at hmem; cases hmem
  rw [Execute_connected ps ses st cl cmds hcl hne, webClose_snd, webClose_sent,
    webClose_logs]
  exact execLoop_empty_mem cl ses hskip cmds st hmem

/-- Claim C4 witness: a concrete batch with an empty second command and
skip-errors on. -/
theorem claim_C4_witness :
    (Execute psMock {sesMock with skipErrors := true} stMock ["a", "", "c"]).2 =
      some ErrCommandEmpty ∧
    (Execute psMock {sesMock with skipErrors := true} stMock ["a", "", "c"]).1.sent =
      ["a"] := by
  have h := claim_C4 psMock clMock {sesMock with skipErrors := true} stMock
    ["a", "", "c"] rfl (by simp) rfl
  refine ⟨h.1, ?_⟩
  rw [h.2.1]; rfl

/-- Claim C6 counterexample: the batch ["", "x"] is a non-empty command
list of length two, yet the second command is never sent and the
separator is written zero times, not once, because the empty first
command aborts the batch. -/
theorem claim_C6_cex :
    (Execute psMock sesMock stMock ["", "x"]).2 = some ErrCommandEmpty ∧
    (Execute psMock sesMock stMock ["", "x"]).1.sent = [] ∧
    List.count CommandsResponseSeparator
      ((Execute psMock sesMock stMock ["", "x"]).1.out) = 0 := by
  exact ⟨rfl, rfl, rfl⟩

/-- Claim C6 (amended): for every non-empty command list whose steps all
succeed or absorb their errors (each command non-empty, each client error
covered by skip-errors), the commands are sent in input order and the
output is the blocks in order with the separator exactly between
successive blocks, hence exactly length - 1 separator lines, never before
the first block or after the last. -/
theorem claim_C6_amended (ps : Providers) (cl : Client) (ses : Session)
    (st : ExecutorState) (cmds : List String) (hne : cmds ≠ [])
    (hok : ∀ c ∈ cmds, c ≠ "" ∧ ((cl c).2 = none ∨ ses.skipErrors = true))
    (hcl : st.client = some cl) :
    (Execute ps ses st cmds).2 = none ∧
    (Execute ps ses st cmds).1.sent = st.sent ++ cmds ∧
    (Execute ps ses st cmds).1.out =
      st.out ++ ((cmds.map (execOut cl ses)).intersperse
        [CommandsResponseSeparator]).flatten ∧
    List.count CommandsResponseSeparator ((Execute ps ses st cmds).1.out) =
      List.count CommandsResponseSeparator st.out + (cmds.length - 1) := by
  have hE := Execute_connected ps ses st cl cmds hcl hne
  rw [execLoop_ok cl ses cmds st hok] at hE
  refine ⟨?_, ?_, ?_, ?_⟩
  · rw [hE, webClose_snd]
  · rw [hE, webClose_sent]
  · rw [hE, webClose_out]
  · rw [hE, webClose_out]
    show List.count CommandsResponseSeparator (st.out ++ _) = _
    rw [List.count_append,
      count_sep_flatten (cmds.map (execOut cl ses))
        (fun b hb => by
          rcases List.mem_map.mp hb with ⟨c, _, rfl⟩
          exact sep_not_mem_execOut cl ses c)
        (by simpa using hne),
      List.length_map]

/-- Claim C6 witness: the amended statement at a concrete two-command
batch. -/
theorem claim_C6_witness :
    (Execute psMock sesMock stMock ["a", "c"]).2 = none ∧
    (Execute psMock sesMock stMock ["a", "c"]).1.sent = ["a", "c"] ∧
    List.count CommandsResponseSeparator
      ((Execute psMock sesMock stMock ["a", "c"]).1.out) = 1 := by
  have h := claim_C6_amended psMock clMock sesMock stMock ["a", "c"] (by simp)
    (by
      intro c hcmem
      rcases List.mem_cons.mp hcmem with rfl | hcmem
      · exact ⟨by decide, Or.inl rfl⟩
      rcases List.mem_cons.mp hcmem with rfl | hcmem
      · exact ⟨by decide, Or.inl rfl⟩
      cases hcmem)
    rfl
  refine ⟨h.1, ?_, ?_⟩
  · rw [h.2.1]; rfl
  · rw [h.2.2.2]; rfl

/-- The flag values parsed by the CLI front end, as read by NewSession
(c.String and c.Bool calls). -/
structure Flags where
  address : String
  password : String
  type : String
  log : String
  config : String
  env : String
  skip : Bool
  timeout : Nat
  variablesFlag : Bool

/-- The fields of one config environment consumed by NewSession. -/
structure ConfigEnvEntry where
  address : String
  password : String
  log : String
  type : String

/-- The session literal NewSession builds from the flag values before
consulting the config. -/
def sessionOfFlags (fl : Flags) : Session :=
  {address := fl.address, password := fl.password, type := fl.type, log := fl.log,
   skipErrors := fl.skip, timeout := fl.timeout, variablesFlag := fl.variablesFlag}

/-- NewSession from executor.go: builds the session from the flags; when
both the address and the password flag are non-empty the configuration
file is ignored entirely; otherwise the config is loaded (a load error is
returned wrapped with a config tag) and each field among address,
password, log, type that the flags left empty is filled from the chosen
config environment (the env flag, defaulted when empty).  The config load
result is passed in as a parameter standing for config.NewConfig. -/
def NewSession (fl : Flags) (cfg : Except String (String → ConfigEnvEntry)) :
    Session × Option String :=
  let ses := sessionOfFlags fl
  if ses.address ≠ "" ∧ ses.password ≠ "" then (ses, none)
  else
    match cfg with
    | Except.error e => (ses, some ("config: " ++ e))
    | Except.ok cm =>
      let env := if fl.env = "" then DefaultConfigEnv else fl.env
      let s1 := if ses.address = "" then {ses with address := (cm env).address} else ses
      let s2 := if s1.password = "" then {s1 with password := (cm env).password} else s1
      let s3 := if s2.log = "" then {s2 with log := (cm env).log} else s2
      let s4 := if s3.type = "" then {s3 with type := (cm env).type} else s3
      (s4, none)

/-- Flags for the C2 counterexample: address and password set, log and
type left empty. -/
def flC2 : Flags := ⟨"1.2.3.4:1", "pw", "", "", "rcon.yaml", "", false, 0, false⟩

/-- Config map for the C2 counterexample: every environment carries a
non-empty log path. -/
def cmC2 : String → ConfigEnvEntry := fun _ => ⟨"cfgaddr:1", "cfgpw", "cfg.log", "telnet"⟩

/-- Claim C2 counterexample: the log flag is empty and the chosen config
environment has log "cfg.log", yet NewSession leaves the log field empty,
because both address and password flags being set short-circuits the
config merge entirely. -/
theorem claim_C2_cex :
    flC2.log = "" ∧ (cmC2 DefaultConfigEnv).log = "cfg.log" ∧
    (NewSession flC2 (Except.ok cmC2)).1.log = "" ∧
    (NewSession flC2 (Except.ok cmC2)).1.log ≠ (cmC2 DefaultConfigEnv).log := by
  exact ⟨rfl, rfl, rfl, by decide⟩

/-- Claim C2 (amended): when both address and password flags are
non-empty, the session is exactly the flag values and the config is
ignored (so empty log and type flags stay empty); otherwise, for each of
the four fields address, password, log and protocol type, a non-empty
flag value wins and an empty one is filled from the chosen config
environment. -/
theorem claim_C2_amended (fl : Flags) (cm : String → ConfigEnvEntry) :
    (fl.address ≠ "" ∧ fl.password ≠ "" →
      NewSession fl (Except.ok cm) = (sessionOfFlags fl, none)) ∧
    (¬ (fl.address ≠ "" ∧ fl.password ≠ "") →
      (NewSession fl (Except.ok cm)).2 = none ∧
      (NewSession fl (Except.ok cm)).1.address =
        (if fl.address = ""
          then (cm (if fl.env = "" then DefaultConfigEnv else fl.env)).address
          else fl.address) ∧
      (NewSession fl (Except.ok cm)).1.password =
        (if fl.password = ""
          then (cm (if fl.env = "" then DefaultConfigEnv else fl.env)).password
          else fl.password) ∧
      (NewSession fl (Except.ok cm)).1.log =
        (if fl.log = ""
          then (cm (if fl.env = "" then DefaultConfigEnv else fl.env)).log
          else fl.log) ∧
      (NewSession fl (Except.ok cm)).1.type =
        (if fl.type = ""
          then (cm (if fl.env = "" then DefaultConfigEnv else fl.env)).type
          else fl.type) ∧
      (NewSession fl (Except.ok cm)).1.skipErrors = fl.skip) := by
  constructor
  · intro h
    simp [NewSession, sessionOfFlags, h]
  · intro h
    by_cases ha : fl.address = "" <;> by_cases hp : fl.password = "" <;>
      by_cases hl : fl.log = "" <;> by_cases ht : fl.type = "" <;>
      simp_all [NewSession, sessionOfFlags]

/-- Claim C2 witness: the two regimes of the amended statement at
concrete inputs. -/
theorem claim_C2_witness :
    (NewSession ⟨"", "pw", "", "", "", "", false, 0, false⟩
      (Except.ok cmC2)).1.address = "cfgaddr:1" ∧
    (NewSession ⟨"", "pw", "", "", "", "", false, 0, false⟩
      (Except.ok cmC2)).1.log = "cfg.log" ∧
    NewSession ⟨"a:1", "pw", "t", "l", "", "", false, 0, false⟩ (Except.ok cmC2) =
      (sessionOfFlags ⟨"a:1", "pw", "t", "l", "", "", false, 0, false⟩, none) := by
  have h := (claim_C2_amended ⟨"", "pw", "", "", "", "", false, 0, false⟩ cmC2).2
    (by decide)
  have h2 := (claim_C2_amended ⟨"a:1", "pw", "t", "l", "", "", false, 0, false⟩ cmC2).1
    ⟨by decide, by decide⟩
  refine ⟨?_, ?_, h2⟩
  · rw [h.2.1]; rfl
  · rw [h.2.2.2.1]; rfl

/-- A string all of whose characters are white space trims to the empty
string. -/
lemma trimSpace_all (s : String) (h : ∀ c ∈ s.data, goIsSpace c = true) :
    trimSpace s = "" := by
  unfold trimSpace
  rw [List.dropWhile_eq_nil_iff.mpr h]
  rfl

/-- Claim C10: the single-command step tests the raw, untrimmed response.
A response that is non-empty but all white space still produces an output
line and a logged response, both equal to the bare reset escape (the
trimmed-empty text normalized in non-strip mode); a response equal to the
empty string produces no output line and an empty logged response. -/
theorem claim_C10 (cl : Client) (ses : Session) (st : ExecutorState)
    (c : String) (hc : c ≠ "") :
    ((cl c).1 ≠ "" → (∀ ch ∈ (cl c).1.data, goIsSpace ch = true) →
      (cl c).2 = none →
      executeOne cl ses st c =
        ({st with sent := st.sent ++ [c], out := st.out ++ ["\x1b[0m"],
                  logs := st.logs ++ [(ses.log, ses.address, c, "\x1b[0m")]}, none)) ∧
    ((cl c).1 = "" → (cl c).2 = none →
      executeOne cl ses st c =
        ({st with sent := st.sent ++ [c],
                  logs := st.logs ++ [(ses.log, ses.address, c, "")]}, none)) := by
  constructor
  · intro hne hws herr
    have hproc : processColorCodes (trimSpace (cl c).1) false = "\x1b[0m" := by
      rw [trimSpace_all _ hws]
      rfl
    simp [executeOne, hc, herr, hne, hproc]
  · intro hempty herr
    simp [executeOne, hc, herr, hempty]

/-- A mock client answering every command with a pure-white-space
response. -/
def clSpace : Client := fun _ => (" \n", none)

/-- A mock client answering every command with an empty response. -/
def clEmptyResp : Client := fun _ => ("", none)

/-- Claim C10 witness: both cases at concrete inputs. -/
theorem claim_C10_witness :
    (executeOne clSpace sesMock stMock "list").1.out = ["\x1b[0m"] ∧
    (executeOne clSpace sesMock stMock "list").1.logs =
      [("log.txt", "addr:1", "list", "\x1b[0m")] ∧
    (executeOne clEmptyResp sesMock stMock "list").1.out = [] ∧
    (executeOne clEmptyResp sesMock stMock "list").1.logs =
      [("log.txt", "addr:1", "list", "")] := by
  have hA := (claim_C10 clSpace sesMock stMock "list" (by decide)).1
    (by decide) (by decide) rfl
  have hB := (claim_C10 clEmptyResp sesMock stMock "list" (by decide)).2 rfl rfl
  refine ⟨?_, ?_, ?_, ?_⟩
  · rw [hA]; rfl
  · rw [hA]; rfl
  · rw [hB]; rfl
  · rw [hB]; rfl

/-- Prompt printed by Interactive for a missing address. -/
def promptAddress : String := "Enter remote host and port [ip:port]: "

/-- Prompt printed by Interactive for a missing password. -/
def promptPassword : String := "Enter password: "

/-- Prompt printed by Interactive for a missing protocol type. -/
def promptType : String := "Enter protocol type (empty for rcon): "

/-- One prompt of the Interactive prompt-filling phase: when the field is
empty, the prompt is written and one token is read from the input
(Fscanln, modelled as consuming one input line; at end of input the field
stays empty); otherwise nothing happens. -/
def readField (v : String) (prompt : String) (st : ExecutorState)
    (input : List String) : String × ExecutorState × List String :=
  if v = "" then
    match input with
    | [] => ("", {st with out := st.out ++ [prompt]}, [])
    | t :: rest => (t, {st with out := st.out ++ [prompt]}, rest)
  else (v, st, input)

/-- A readField on a non-empty field is a no-op. -/
lemma readField_nonempty (v prompt : String) (st : ExecutorState)
    (input : List String) (h : v ≠ "") :
    readField v prompt st input = (v, st, input) := by
  unfold readField
  rw [if_neg h]

/-- The banner Interactive writes before the command loop; it ends with
the first prompt marker. -/
def interactiveHeader (address : String) : String :=
  "Waiting commands for " ++ address ++ " (or type " ++ CommandQuit ++ " to exit)\n> "

/-- The diagnostic Interactive writes for an unsupported protocol type. -/
def unsupportedProtocol (t : String) : String :=
  "Unsupported protocol type (\"" ++ t ++ "\"). Allowed \"" ++ ProtocolRCON ++
    "\", \"" ++ ProtocolWebRCON ++ "\" and \"" ++ ProtocolTELNET ++ "\" protocols"

/-- The scanner loop of Interactive: an empty line only re-prompts; the
quit token breaks out of the loop with no error and no further prompt;
any other line runs as a single-command batch, whose error ends the
session, and on success a prompt marker is written before the next
line. -/
def interactiveLoop (ps : Providers) (ses : Session) (st : ExecutorState) :
    List String → ExecutorState × Option String
  | [] => (st, none)
  | line :: rest =>
    if line ≠ "" then
      if line = CommandQuit then (st, none)
      else
        match Execute ps ses st [line] with
        | (st1, some e) => (st1, some e)
        | (st1, none) =>
          interactiveLoop ps ses {st1 with out := st1.out ++ ["> "]} rest
    else interactiveLoop ps ses {st with out := st.out ++ ["> "]} rest

/-- Interactive from executor.go: fill each missing session field by
prompting and reading one token; then dispatch on the resulting protocol
type: telnet hands the streams to the telnet collaborator (its result is
passed in as a parameter standing for telnet.DialInteractive); the empty,
rcon and web types dial (a dial failure ends the call with that error),
write the banner and enter the scanner loop; any other type writes a
diagnostic and returns no error. -/
def Interactive (ps : Providers) (telnetResult : Option String) (ses : Session)
    (st : ExecutorState) (input : List String) : ExecutorState × Option String :=
  let a := readField ses.address promptAddress st input
  let ses1 := {ses with address := a.1}
  let p := readField ses1.password promptPassword a.2.1 a.2.2
  let ses2 := {ses1 with password := p.1}
  let t := readField ses2.type promptType p.2.1 p.2.2
  let ses3 := {ses2 with type := t.1}
  if ses3.type = ProtocolTELNET then (t.2.1, telnetResult)
  else if ses3.type = "" ∨ ses3.type = ProtocolRCON ∨ ses3.type = ProtocolWebRCON then
    match Dial ps ses3 t.2.1 with
    | (st4, some e) => (st4, some e)
    | (st4, none) =>
      interactiveLoop ps ses3
        {st4 with out := st4.out ++ [interactiveHeader ses3.address]} t.2.2
  else ({t.2.1 with out := t.2.1.out ++ [unsupportedProtocol ses3.type]}, none)

/-- An empty input line re-prompts without executing anything. -/
lemma interactiveLoop_empty (ps : Providers) (ses : Session)
    (st1 : ExecutorState) (rest : List String) :
    interactiveLoop ps ses st1 ("" :: rest) =
      interactiveLoop ps ses {st1 with out := st1.out ++ ["> "]} rest := by
  rw [interactiveLoop, if_neg (fun h => h rfl)]

/-- The quit token ends the loop cleanly, with no further prompt. -/
lemma interactiveLoop_quit (ps : Providers) (ses : Session)
    (st1 : ExecutorState) (rest : List String) :
    interactiveLoop ps ses st1 (CommandQuit :: rest) = (st1, none) := by
  rw [interactiveLoop, if_pos (by decide : CommandQuit ≠ ""), if_pos rfl]

/-- A non-empty, non-quit line whose single-command batch fails ends the
session with that error. -/
lemma interactiveLoop_exec_err (ps : Providers) (ses : Session)
    (st1 st2 : ExecutorState) (line e : String) (rest : List String)
    (hne : line ≠ "") (hq : line ≠ CommandQuit)
    (hx : Execute ps ses st1 [line] = (st2, some e)) :
    interactiveLoop ps ses st1 (line :: rest) = (st2, some e) := by
  rw [interactiveLoop, if_pos hne, if_neg hq, hx]

/-- A non-empty, non-quit line whose single-command batch succeeds is
followed by a prompt and the rest of the loop. -/
lemma interactiveLoop_exec_ok (ps : Providers) (ses : Session)
    (st1 st2 : ExecutorState) (line : String) (rest : List String)
    (hne : line ≠ "") (hq : line ≠ CommandQuit)
    (hx : Execute ps ses st1 [line] = (st2, none)) :
    interactiveLoop ps ses st1 (line :: rest) =
      interactiveLoop ps ses {st2 with out := st2.out ++ ["> "]} rest := by
  rw [interactiveLoop, if_pos hne, if_neg hq, hx]

/-- Claim C8: in the command phase an empty line re-prompts without
executing, the quit token terminates cleanly, and any other line runs as
a single-command batch whose error ends the session; in particular on the
input stream empty line then quit, with the session fields already set
and a connected client, Interactive writes exactly the banner (ending in
the first prompt marker) and one further prompt marker, executes nothing,
and returns no error. -/
theorem claim_C8 (ps : Providers) (tr : Option String) (ses : Session)
    (st : ExecutorState) (cl : Client)
    (haddr : ses.address ≠ "") (hpwd : ses.password ≠ "")
    (hty : ses.type = ProtocolRCON) (hcl : st.client = some cl) :
    (Interactive ps tr ses st ["", CommandQuit] =
      ({st with out := st.out ++ [interactiveHeader ses.address, "> "]}, none)) ∧
    (∀ (rest : List String) (st1 : ExecutorState),
      interactiveLoop ps ses st1 ("" :: rest) =
        interactiveLoop ps ses {st1 with out := st1.out ++ ["> "]} rest) ∧
    (∀ (rest : List String) (st1 : ExecutorState),
      interactiveLoop ps ses st1 (CommandQuit :: rest) = (st1, none)) ∧
    (∀ (line e : String) (rest : List String) (st1 st2 : ExecutorState),
      line ≠ "" → line ≠ CommandQuit →
      Execute ps ses st1 [line] = (st2, some e) →
      interactiveLoop ps ses st1 (line :: rest) = (st2, some e)) ∧
    (∀ (line : String) (rest : List String) (st1 st2 : ExecutorState),
      line ≠ "" → line ≠ CommandQuit →
      Execute ps ses st1 [line] = (st2, none) →
      interactiveLoop ps ses st1 (line :: rest) =
        interactiveLoop ps ses {st2 with out := st2.out ++ ["> "]} rest) := by
  refine ⟨?_, fun rest st1 => interactiveLoop_empty ps ses st1 rest,
    fun rest st1 => interactiveLoop_quit ps ses st1 rest,
    fun line e rest st1 st2 hne hq hx =>
      interactiveLoop_exec_err ps ses st1 st2 line e rest hne hq hx,
    fun line rest st1 st2 hne hq hx =>
      interactiveLoop_exec_ok ps ses st1 st2 line rest hne hq hx⟩
  simp [Interactive, readField, haddr, hpwd, hty, ProtocolRCON, ProtocolTELNET,
    ProtocolWebRCON, Dial, hcl, interactiveLoop, CommandQuit, List.append_assoc]

/-- A session with all fields set for the C8 witness. -/
def sesRcon : Session := ⟨"addr:1", "pw", ProtocolRCON, "log.txt", false, 0, false⟩

/-- Claim C8 witness: the empty-line-then-quit scenario at concrete
inputs. -/
theorem claim_C8_witness :
    Interactive psMock none sesRcon stMock ["", CommandQuit] =
      ({stMock with out := [interactiveHeader "addr:1", "> "]}, none) := by
  have h := (claim_C8 psMock none sesRcon stMock clMock (by decide) (by decide)
    rfl rfl).1
  rw [h]
  rfl

end RconCli
